import Mathlib

/-!
Shallow embedding of the profiling core of the `hawk` repository
(`hawk/profiling/mem/tracemalloc.py`, `hawk/profiling/cpu/pyinstrument.py`,
`hawk/profiling/memory.py`, `hawk/profiling/renderers.py`), together with
theorems settling the specification claims about it.

Python machine floats appearing in `format_bytes` are modelled as exact
dyadic rationals `num / 2 ^ exp`: the only float operations the source
performs there are converting an integer and dividing by 1024, both of
which are exact in binary floating point throughout the magnitudes at
issue, so the dyadic model coincides with IEEE semantics on them.
Python exceptions are modelled by an explicit error type; mutable module
state is modelled by explicit state passing.
-/

/-- Python exception classes raised by the profiling core:
`ProfilingAlreadyStarted`, `ProfilingNotStarted` (hawk.profiling.exceptions),
`ValueError` and `RuntimeError` (builtins). -/
inductive PyError
  | profilingAlreadyStarted (msg : String)
  | profilingNotStarted (msg : String)
  | valueError (msg : String)
  | runtimeError (msg : String)
deriving DecidableEq

deriving instance DecidableEq for Except

/-- An exact binary float: the rational `num / 2 ^ exp`. -/
structure PyFloat where
  num : Int
  exp : Nat
deriving DecidableEq

/-- `float(value)` for an integer `value`. -/
def PyFloat.ofInt (n : Int) : PyFloat :=
  ⟨n, 0⟩

/-- Division of a binary float by 1024 (exact: adds 10 to the binary
exponent). -/
def PyFloat.div1024 (v : PyFloat) : PyFloat :=
  ⟨v.num, v.exp + 10⟩

/-- `abs(v) < 1024` for a binary float `v = num / 2 ^ exp`. -/
def PyFloat.absLt1024 (v : PyFloat) : Bool :=
  v.num.natAbs < 1024 * 2 ^ v.exp

/-- Python `f"{v:.1f}"` on `v = n / 2 ^ e`: round to one decimal place,
nearest, ties to even (decimal printing of a binary float is correctly
rounded), preserving the sign — including the `-0.0` Python prints for a
tiny negative value.  The width-3 form `f"{v:3.1f}"` used in the source
never pads, because a one-decimal rendering is always at least three
characters wide. -/
def PyFloat.decimal1 (v : PyFloat) : String :=
  let m : Int := 10 * v.num
  let d : Int := (2 ^ v.exp : Nat)
  let f : Int := Int.fdiv m d
  let r2 : Int := 2 * (m - f * d)
  let t : Int :=
    if r2 < d then f
    else if d < r2 then f + 1
    else if f % 2 = 0 then f else f + 1
  let n : Nat := t.natAbs
  let sign : String := if t < 0 ∨ (t = 0 ∧ v.num < 0) then "-" else ""
  sign ++ toString (n / 10) ++ "." ++ toString (n % 10)

/-- `format_bytes` loop body: walk the unit list, dividing by 1024 until
the absolute value drops below 1024, falling back to `"YB"`
(mem/tracemalloc.py lines 32-41; memory.py carries an identical copy). -/
def formatBytesAux : List String → PyFloat → String
  | [], v => v.decimal1 ++ " YB"
  | u :: us, v =>
      if v.absLt1024 then v.decimal1 ++ " " ++ u
      else formatBytesAux us v.div1024

/-- `format_bytes(value)` from mem/tracemalloc.py (lines 32-41). -/
def format_bytes (value : Int) : String :=
  formatBytesAux ["B", "KB", "MB", "GB", "TB", "PB", "EB"] (PyFloat.ofInt value)

/-- `RenderMode` from renderers.py. -/
inductive RenderMode
  | view
  | download
deriving DecidableEq

/-- `MimeType` from renderers.py. -/
inductive MimeType
  | json
  | html
  | binary
deriving DecidableEq

/-- `RenderedProfile` from renderers.py, generic over the shape of its
`content` payload (a JSON-like dict for the memory renderers, an opaque
string/bytes for the others). -/
structure RenderedProfile (C : Type) where
  file_name : String
  mime_type : MimeType
  render_mode : RenderMode
  content : C
deriving DecidableEq

/-- Opaque `tracemalloc.Snapshot` handle; its contents live behind the
external calls collected in `TraceEnv`. -/
abbrev RawSnapshot := Nat

/-- One frame of a `tracemalloc.Traceback`. -/
structure Frame where
  filename : String
  lineno : Int
deriving DecidableEq

/-- A `tracemalloc.Statistic` / `StatisticDiff` as the renderers consume
it: block count, byte size, and a traceback that tracemalloc guarantees
holds at least one frame (the code accesses `stat.traceback[0]`).
Only the fields the source reads are modelled. -/
structure Statistic where
  count : Int
  size : Int
  tracebackHead : Frame
  tracebackRest : List Frame
deriving DecidableEq

/-- External capabilities of the CPython runtime and standard library the
profiling core calls into: the tracemalloc engine (heap measurement,
snapshotting, statistics aggregation), `linecache`, `str(stat)`,
`Traceback.format()`, and the wall clock.  Snapshot measurements are
indexed by a logical tick that advances at each `take_snapshot` call. -/
structure TraceEnv where
  heapAt : Nat → Int
  snapAt : Nat → RawSnapshot
  statisticsLineno : RawSnapshot → Bool → List Statistic
  statisticsTraceback : RawSnapshot → List Statistic
  compareToLineno : RawSnapshot → RawSnapshot → Bool → List Statistic
  compareToTraceback : RawSnapshot → RawSnapshot → List Statistic
  getline : String → Int → String
  reprStat : Statistic → String
  formatTb : Statistic → List String
  now : String

/-- `ProfileOptions` from mem/tracemalloc.py (lines 53-67). -/
structure Tracemalloc.ProfileOptions where
  gc : Bool
  frames : Int
deriving DecidableEq

/-- Constructing a mem `ProfileOptions`: the dataclass `__post_init__`
raises `ValueError` when `frames < 1`, before any session state is
touched (mem/tracemalloc.py lines 58-60). -/
def Tracemalloc.ProfileOptions.make (gc : Bool) (frames : Int) :
    Except PyError Tracemalloc.ProfileOptions :=
  if frames < 1 then .error (.valueError "Frames should be greater than 0")
  else .ok ⟨gc, frames⟩

/-- `PointInTimeProfile` from mem/tracemalloc.py (lines 105-108). -/
structure PointInTimeProfile where
  heap_usage_bytes : Int
  snapshot : RawSnapshot
deriving DecidableEq

/-- `IntervalProfile` from mem/tracemalloc.py (lines 70-75). -/
structure IntervalProfile where
  start_heap_usage_bytes : Int
  start_snapshot : RawSnapshot
  stop_heap_usage_bytes : Int
  stop_snapshot : RawSnapshot
deriving DecidableEq

/-- `IntervalProfileProxy` from mem/tracemalloc.py (lines 78-102):
holds the start profile eagerly, the stop profile once `stop` is called,
and memoizes the computed `IntervalProfile` in `intervalProfile`
(the `_interval_profile` attribute). -/
structure IntervalProfileProxy where
  start_profile : PointInTimeProfile
  stop_profile : Option PointInTimeProfile
  intervalProfile : Option IntervalProfile
deriving DecidableEq

/-- `IntervalProfileProxy.__init__`. -/
def IntervalProfileProxy.init (start_profile : PointInTimeProfile) :
    IntervalProfileProxy :=
  ⟨start_profile, none, none⟩

/-- `IntervalProfileProxy.get` (mem/tracemalloc.py lines 85-99): raises
`RuntimeError` before the stop profile is set; afterwards computes the
interval profile once and returns the memoized value on every later
call.  Returns the (possibly updated) proxy alongside the result. -/
def IntervalProfileProxy.get (p : IntervalProfileProxy) :
    Except PyError (IntervalProfile × IntervalProfileProxy) :=
  match p.stop_profile with
  | none => .error (.runtimeError "Stop profile is not set")
  | some sp =>
    match p.intervalProfile with
    | some ip => .ok (ip, p)
    | none =>
      let ip : IntervalProfile :=
        ⟨p.start_profile.heap_usage_bytes, p.start_profile.snapshot,
         sp.heap_usage_bytes, sp.snapshot⟩
      .ok (ip, { p with intervalProfile := some ip })

/-- `IntervalProfileProxy.stop` (mem/tracemalloc.py lines 101-102). -/
def IntervalProfileProxy.setStop (p : IntervalProfileProxy)
    (stop_profile : PointInTimeProfile) : IntervalProfileProxy :=
  { p with stop_profile := some stop_profile }

/-- Process-wide tracemalloc engine state: whether tracing is on
(`tracemalloc.is_tracing()`), and the logical tick indexing snapshot
measurements in `TraceEnv`. -/
structure TracingState where
  tracing : Bool
  tick : Nat
deriving DecidableEq

/-- `TracemallocProfiler` instance state (mem/tracemalloc.py line 139):
whether `PYTHONTRACEMALLOC` was set in the environment at construction
time. -/
structure TracemallocProfiler where
  tracemallocEnabledInEnv : Bool
deriving DecidableEq

/-- `TracemallocProfiler.start` (mem/tracemalloc.py lines 152-166):
raises `ProfilingAlreadyStarted` if tracing is already on — with a
message naming `PYTHONTRACEMALLOC` when the tracer was enabled through
the environment — otherwise (after an optional `gc.collect()`, an
external effect with no bearing on the modelled state) turns tracing
on.  Returns the outcome together with the resulting engine state. -/
def TracemallocProfiler.start (self : TracemallocProfiler)
    (_opt : Tracemalloc.ProfileOptions) (s : TracingState) :
    Except PyError Unit × TracingState :=
  if s.tracing then
    (.error (.profilingAlreadyStarted
      (if self.tracemallocEnabledInEnv then
        "Profiler is already started via environment variable PYTHONTRACEMALLOC"
       else "Profiler is already started")), s)
  else
    (.ok (), { s with tracing := true })

/-- `TracemallocProfiler.snapshot` (mem/tracemalloc.py lines 168-180):
raises `ProfilingNotStarted` when tracing is off; otherwise measures the
current heap usage and takes a snapshot (advancing the measurement
tick). -/
def TracemallocProfiler.snapshot (env : TraceEnv) (s : TracingState) :
    Except PyError PointInTimeProfile × TracingState :=
  if s.tracing then
    (.ok ⟨env.heapAt s.tick, env.snapAt s.tick⟩, { s with tick := s.tick + 1 })
  else
    (.error (.profilingNotStarted "Profiler is not started yet"), s)

/-- `TracemallocProfiler.stop` (mem/tracemalloc.py lines 182-189):
raises `ProfilingNotStarted` when tracing is off; otherwise turns
tracing off. -/
def TracemallocProfiler.stop (s : TracingState) :
    Except PyError Unit × TracingState :=
  if s.tracing then
    (.ok (), { s with tracing := false })
  else
    (.error (.profilingNotStarted "Profiler is not started yet"), s)

/-- The enclosed workload of a scoped profiling operation, opaque to the
controller: it advances the measurement clock by `ticks` and either
completes normally (`outcome = none`) or raises the exception
`outcome = some e`.  It does not itself touch the profiler state. -/
structure Workload where
  ticks : Nat
  outcome : Option String
deriving DecidableEq

/-- `TracemallocProfiler.profile` (mem/tracemalloc.py lines 141-150), the
`@contextmanager` scope: `start`, take the start snapshot, build the
proxy, run the enclosed workload, and in the `finally` block take the
final snapshot into the proxy and `stop` — the `finally` body runs
before any workload exception propagates.  The result is the proxy (on a
normal exit), or `.inl` a profiler error, or `.inr` the workload's own
exception re-raised after the exit path completed. -/
def TracemallocProfiler.profile (self : TracemallocProfiler)
    (env : TraceEnv) (opt : Tracemalloc.ProfileOptions) (work : Workload)
    (s : TracingState) :
    Except (PyError ⊕ String) IntervalProfileProxy × TracingState :=
  match self.start opt s with
  | (.error e, s1) => (.error (.inl e), s1)
  | (.ok _, s1) =>
    match TracemallocProfiler.snapshot env s1 with
    | (.error e, s2) => (.error (.inl e), s2)
    | (.ok p0, s2) =>
      let proxy0 := IntervalProfileProxy.init p0
      let s3 := { s2 with tick := s2.tick + work.ticks }
      match TracemallocProfiler.snapshot env s3 with
      | (.error e, s4) => (.error (.inl e), s4)
      | (.ok p1, s4) =>
        let proxy1 := proxy0.setStop p1
        match TracemallocProfiler.stop s4 with
        | (.error e, s5) => (.error (.inl e), s5)
        | (.ok _, s5) =>
          match work.outcome with
          | some we => (.error (.inr we), s5)
          | none => (.ok proxy1, s5)

/-- Python list slicing `xs[:count]` for an `int` count: a nonnegative
count keeps the first `count` elements; a negative count keeps all but
the last `|count|` elements (empty only once `|count|` reaches the
length). -/
def pySliceTo {α : Type} (xs : List α) (count : Int) : List α :=
  if 0 ≤ count then xs.take count.toNat
  else xs.take (xs.length - (-count).toNat)

/-- One entry yielded by `LinenoSnapshotRenderer._format_lineno`
(mem/tracemalloc.py lines 289-297). -/
structure LinenoStatEntry where
  stat : String
  mem_blocks_count : Int
  mem_blocks_size_bytes : Int
  mem_blocks_size : String
  filename : String
  lineno : Int
  code : String
deriving DecidableEq

/-- `LinenoSnapshotRenderer._format_lineno` (mem/tracemalloc.py lines
283-297): slice the ranked statistics to `count` and format each,
reading the representative source line through `linecache`. -/
def LinenoSnapshotRenderer.formatLineno (env : TraceEnv)
    (top_stats : List Statistic) (count : Int) : List LinenoStatEntry :=
  (pySliceTo top_stats count).map fun stat =>
    let frame := stat.tracebackHead
    { stat := env.reprStat stat
      mem_blocks_count := stat.count
      mem_blocks_size_bytes := stat.size
      mem_blocks_size := format_bytes stat.size
      filename := frame.filename
      lineno := frame.lineno
      code := env.getline frame.filename frame.lineno }

/-- One entry yielded by `TracebackSnapshotRender._format_traceback`
(mem/tracemalloc.py lines 382-387). -/
structure TracebackStatEntry where
  mem_blocks_count : Int
  mem_blocks_size_bytes : Int
  mem_blocks_size : String
  traceback : List String
deriving DecidableEq

/-- `TracebackSnapshotRender._format_traceback` (mem/tracemalloc.py lines
380-387). -/
def TracebackSnapshotRender.formatTraceback (env : TraceEnv)
    (top_stats : List Statistic) (count : Int) : List TracebackStatEntry :=
  (pySliceTo top_stats count).map fun stat =>
    { mem_blocks_count := stat.count
      mem_blocks_size_bytes := stat.size
      mem_blocks_size := format_bytes stat.size
      traceback := env.formatTb stat }

/-- The JSON dict the memory snapshot renderers produce as `content`:
the formatted stats list plus the heap-usage summary; the diff fields
are present only for interval profiles. -/
structure MemSnapshotContent (E : Type) where
  stats : List E
  heap_current_bytes : Int
  heap_current : String
  heap_diff_bytes : Option Int
  heap_diff : Option String
deriving DecidableEq

/-- `LinenoSnapshotRenderer.get_file_name` (mem/tracemalloc.py lines
208-211); `TracebackSnapshotRender` computes the same name. -/
def memSnapshotFileName (env : TraceEnv) : String :=
  "hwk_mem_tracemalloc_snapshot_" ++ env.now ++ ".json"

/-- `LinenoSnapshotRenderer._render_point_in_time_profile`
(mem/tracemalloc.py lines 229-250). -/
def LinenoSnapshotRenderer.renderPointInTime (env : TraceEnv)
    (profile : PointInTimeProfile) (count : Int) (cumulative : Bool) :
    RenderedProfile (MemSnapshotContent LinenoStatEntry) :=
  let top_stats := env.statisticsLineno profile.snapshot cumulative
  { file_name := memSnapshotFileName env
    mime_type := .json
    render_mode := .view
    content :=
      { stats := LinenoSnapshotRenderer.formatLineno env top_stats count
        heap_current_bytes := profile.heap_usage_bytes
        heap_current := format_bytes profile.heap_usage_bytes
        heap_diff_bytes := none
        heap_diff := none } }

/-- `LinenoSnapshotRenderer._render_interval_profile`
(mem/tracemalloc.py lines 252-281): diff the stop snapshot against the
start snapshot, and report the heap summary of the stop measurement plus
the exact heap difference. -/
def LinenoSnapshotRenderer.renderInterval (env : TraceEnv)
    (profile : IntervalProfile) (count : Int) (cumulative : Bool) :
    RenderedProfile (MemSnapshotContent LinenoStatEntry) :=
  let top_stats :=
    env.compareToLineno profile.stop_snapshot profile.start_snapshot cumulative
  let heap_diff_bytes :=
    profile.stop_heap_usage_bytes - profile.start_heap_usage_bytes
  { file_name := memSnapshotFileName env
    mime_type := .json
    render_mode := .view
    content :=
      { stats := LinenoSnapshotRenderer.formatLineno env top_stats count
        heap_current_bytes := profile.stop_heap_usage_bytes
        heap_current := format_bytes profile.stop_heap_usage_bytes
        heap_diff_bytes := some heap_diff_bytes
        heap_diff := some (format_bytes heap_diff_bytes) } }

/-- `TracebackSnapshotRender._render_point_in_time_profile`
(mem/tracemalloc.py lines 329-349). -/
def TracebackSnapshotRender.renderPointInTime (env : TraceEnv)
    (profile : PointInTimeProfile) (count : Int) :
    RenderedProfile (MemSnapshotContent TracebackStatEntry) :=
  let top_stats := env.statisticsTraceback profile.snapshot
  { file_name := memSnapshotFileName env
    mime_type := .json
    render_mode := .view
    content :=
      { stats := TracebackSnapshotRender.formatTraceback env top_stats count
        heap_current_bytes := profile.heap_usage_bytes
        heap_current := format_bytes profile.heap_usage_bytes
        heap_diff_bytes := none
        heap_diff := none } }

/-- `TracebackSnapshotRender._render_interval_profile`
(mem/tracemalloc.py lines 351-378). -/
def TracebackSnapshotRender.renderInterval (env : TraceEnv)
    (profile : IntervalProfile) (count : Int) :
    RenderedProfile (MemSnapshotContent TracebackStatEntry) :=
  let top_stats :=
    env.compareToTraceback profile.stop_snapshot profile.start_snapshot
  let heap_diff_bytes :=
    profile.stop_heap_usage_bytes - profile.start_heap_usage_bytes
  { file_name := memSnapshotFileName env
    mime_type := .json
    render_mode := .view
    content :=
      { stats := TracebackSnapshotRender.formatTraceback env top_stats count
        heap_current_bytes := profile.stop_heap_usage_bytes
        heap_current := format_bytes profile.stop_heap_usage_bytes
        heap_diff_bytes := some heap_diff_bytes
        heap_diff := some (format_bytes heap_diff_bytes) } }

/-- Tags for the three renderer singletons of the memory registry. -/
inductive MemRendererTag
  | lineno
  | traceback
  | pickle
deriving DecidableEq

/-- `PROFILE_RENDERERS` from mem/tracemalloc.py (lines 436-440), as the
ordered association list backing the dict (keys are the `ProfileFormat`
string values, in insertion order). -/
def Tracemalloc.PROFILE_RENDERERS : List (String × MemRendererTag) :=
  [("lineno", .lineno), ("traceback", .traceback), ("pickle", .pickle)]

/-- `get_renderer` from mem/tracemalloc.py (lines 443-447): a registry
miss raises `ValueError` whose message joins the registry keys. -/
def Tracemalloc.get_renderer (format : String) :
    Except PyError MemRendererTag :=
  match Tracemalloc.PROFILE_RENDERERS.lookup format with
  | some r => .ok r
  | none => .error (.valueError
      ("Invalid profile format: " ++ format ++ " (formats: " ++
        String.intercalate ", " (Tracemalloc.PROFILE_RENDERERS.map Prod.fst) ++
        ")"))

/-- `AsyncModes` from cpu/pyinstrument.py (lines 38-41). -/
inductive AsyncModes
  | enabled
  | disabled
  | strict
deriving DecidableEq

/-- `ProfileOptions` from cpu/pyinstrument.py (lines 43-47).  The
sampling interval is a float; here a rational stands in for it (only its
sign could matter to the claims, and the module performs no arithmetic
on it). -/
structure Pyinstrument.ProfileOptions where
  interval : ℚ
  use_timing_thread : Option Bool
  async_mode : AsyncModes

/-- Constructing a cpu `ProfileOptions`: the dataclass has no
`__post_init__` and performs no validation whatsoever — construction
always succeeds, whatever the interval (cpu/pyinstrument.py lines
43-47). -/
def Pyinstrument.ProfileOptions.make (interval : ℚ)
    (use_timing_thread : Option Bool) (async_mode : AsyncModes) :
    Except PyError Pyinstrument.ProfileOptions :=
  .ok ⟨interval, use_timing_thread, async_mode⟩

/-- A started `pyinstrument.Profiler` native object, carrying the options
it was constructed with (cpu/pyinstrument.py lines 93-98). -/
structure PyinstrumentHandle where
  interval : ℚ
  use_timing_thread : Option Bool
  async_mode : AsyncModes
  running : Bool

/-- `PyInstrumentProfiler` instance state: the `_curr_profiler`
attribute (the `_profiler_lock` only matters to the interleaved model
below; in this sequential model each operation runs alone). -/
structure CpuState where
  curr : Option PyinstrumentHandle

/-- `PyInstrumentProfiler.start` (cpu/pyinstrument.py lines 84-101):
raises `ProfilingAlreadyStarted` when a profiler is current (a
`pyinstrument.Profiler` object is always truthy); otherwise — under the
lock — creates a profiler from the options, starts it, and installs it. -/
def PyInstrumentProfiler.start (opt : Pyinstrument.ProfileOptions)
    (s : CpuState) : Except PyError PyinstrumentHandle × CpuState :=
  match s.curr with
  | some _ => (.error (.profilingAlreadyStarted "Profiler is already started"), s)
  | none =>
    let p : PyinstrumentHandle :=
      ⟨opt.interval, opt.use_timing_thread, opt.async_mode, true⟩
    (.ok p, { curr := some p })

/-- `PyInstrumentProfiler.stop` (cpu/pyinstrument.py lines 103-114):
raises `ProfilingNotStarted` when no profiler is current — checking once
before taking the lock and once again under it — otherwise stops the
current profiler, clears `_curr_profiler`, and returns the stopped
profiler. -/
def PyInstrumentProfiler.stop (s : CpuState) :
    Except PyError PyinstrumentHandle × CpuState :=
  match s.curr with
  | none => (.error (.profilingNotStarted "Profiler is not started yet"), s)
  | some _ =>
    -- the second, double-checked read of `_curr_profiler` under the lock
    match s.curr with
    | none => (.error (.profilingNotStarted "Profiler is not started yet"), s)
    | some p => (.ok { p with running := false }, { curr := none })

/-- `PyInstrumentProfiler.profile` (cpu/pyinstrument.py lines 75-82), the
`@contextmanager` scope: `start`, run the enclosed workload, and in the
`finally` block `stop` — the `finally` body runs before any workload
exception propagates. -/
def PyInstrumentProfiler.profile (opt : Pyinstrument.ProfileOptions)
    (work : Workload) (s : CpuState) :
    Except (PyError ⊕ String) PyinstrumentHandle × CpuState :=
  match PyInstrumentProfiler.start opt s with
  | (.error e, s1) => (.error (.inl e), s1)
  | (.ok h, s1) =>
    match PyInstrumentProfiler.stop s1 with
    | (.error e, s2) => (.error (.inl e), s2)
    | (.ok _, s2) =>
      match work.outcome with
      | some we => (.error (.inr we), s2)
      | none => (.ok h, s2)

/-- Tags for the three renderer singletons of the cpu registry. -/
inductive CpuRendererTag
  | json
  | html
  | speedscope
deriving DecidableEq

/-- `PROFILE_RENDERERS` from cpu/pyinstrument.py (lines 203-207), in dict
insertion order (JSON, HTML, SPEEDSCOPE). -/
def Pyinstrument.PROFILE_RENDERERS : List (String × CpuRendererTag) :=
  [("json", .json), ("html", .html), ("speedscope", .speedscope)]

/-- `get_renderer` from cpu/pyinstrument.py (lines 210-214). -/
def Pyinstrument.get_renderer (format : String) :
    Except PyError CpuRendererTag :=
  match Pyinstrument.PROFILE_RENDERERS.lookup format with
  | some r => .ok r
  | none => .error (.valueError
      ("Invalid profile format: " ++ format ++ " (formats: " ++
        String.intercalate ", " (Pyinstrument.PROFILE_RENDERERS.map Prod.fst) ++
        ")"))

/-!
Interleaved model of two threads racing through
`PyInstrumentProfiler.start` (cpu/pyinstrument.py lines 84-101).
Each thread executes three atomic steps:
 1. the `if self._curr_profiler:` check — performed WITHOUT holding
    `_profiler_lock` (line 88);
 2. acquiring `_profiler_lock` (line 91), blocking while the other
    thread holds it;
 3. inside the critical section: create and start a profiler, assign it
    to `_curr_profiler`, release the lock, return it (lines 93-101).
-/

/-- Program counter of one thread running `start`. -/
inductive StartPC
  | ready
  | waiting
  | critical
  | succeeded
  | raised
deriving DecidableEq, Fintype

/-- Shared state of the two racing `start` calls: which thread's
profiler is installed in `_curr_profiler` (if any), who holds
`_profiler_lock`, and each thread's program counter. -/
structure RaceState where
  curr : Option Bool
  lock : Option Bool
  pc0 : StartPC
  pc1 : StartPC
deriving DecidableEq, Fintype

/-- Program counter of thread `i`. -/
def RaceState.pcOf (s : RaceState) (i : Bool) : StartPC :=
  if i then s.pc1 else s.pc0

/-- Replace the program counter of thread `i`. -/
def RaceState.setPc (s : RaceState) (i : Bool) (p : StartPC) : RaceState :=
  if i then { s with pc1 := p } else { s with pc0 := p }

/-- One atomic step of thread `i`'s `start` call; a thread blocked on the
lock, or already finished, leaves the state unchanged. -/
def raceStep (i : Bool) (s : RaceState) : RaceState :=
  match s.pcOf i with
  | .ready =>
      -- `if self._curr_profiler: raise ProfilingAlreadyStarted(...)`,
      -- evaluated without holding the lock
      if s.curr.isSome then s.setPc i .raised else s.setPc i .waiting
  | .waiting =>
      -- `with self._profiler_lock:` — acquire when free
      if s.lock = none then { s.setPc i .critical with lock := some i } else s
  | .critical =>
      -- create + start a profiler, `self._curr_profiler = profiler`,
      -- release the lock, return
      { s.setPc i .succeeded with curr := some i, lock := none }
  | _ => s

/-- Run a schedule (a list of thread ids, each performing its next
atomic step in turn). -/
def raceRun (sched : List Bool) (s : RaceState) : RaceState :=
  sched.foldl (fun s i => raceStep i s) s

/-- Both threads poised to call `start` against an IDLE session. -/
def raceInit : RaceState :=
  ⟨none, none, .ready, .ready⟩

/-- The dict returned by `LinenoSnapshotRenderer.render` in the legacy
module memory.py: formatted stats plus the heap summary, whose diff
fields are present only when the baseline heap figure tested truthy. -/
structure Memory.LinenoContent where
  stats : List LinenoStatEntry
  heap_current_bytes : Int
  heap_current : String
  heap_diff_bytes : Option Int
  heap_diff : Option String
deriving DecidableEq

/-- `LinenoSnapshotRenderer.render` from the legacy module memory.py
(lines 66-100): aggregates (or diffs against the optional baseline
snapshot — a `tracemalloc.Snapshot` object is always truthy, so
`if not initial_snapshot` is a `None` test), then attaches the heap
summary.  The diff fields are guarded by Python truthiness of
`initial_heap_usage_bytes`: they are added only when the baseline heap
figure is present AND non-zero (memory.py line 92). -/
def Memory.LinenoSnapshotRenderer.render (env : TraceEnv)
    (snapshot : RawSnapshot) (heap_usage_bytes : Int)
    (initial_snapshot : Option RawSnapshot)
    (initial_heap_usage_bytes : Option Int)
    (count : Int) (cumulative : Bool) : Memory.LinenoContent :=
  let top_stats :=
    match initial_snapshot with
    | none => env.statisticsLineno snapshot cumulative
    | some init => env.compareToLineno snapshot init cumulative
  let withDiff :=
    match initial_heap_usage_bytes with
    | some b1 =>
        if b1 ≠ 0 then
          some (heap_usage_bytes - b1)
        else none
    | none => none
  { stats := LinenoSnapshotRenderer.formatLineno env top_stats count
    heap_current_bytes := heap_usage_bytes
    heap_current := format_bytes heap_usage_bytes
    heap_diff_bytes := withDiff
    heap_diff := withDiff.map format_bytes }

/-!
Concrete fixtures used by counterexamples and witnesses.
-/

/-- A trivial concrete external environment. -/
def envZero : TraceEnv :=
  { heapAt := fun _ => 0
    snapAt := fun t => t
    statisticsLineno := fun _ _ => []
    statisticsTraceback := fun _ => []
    compareToLineno := fun _ _ _ => []
    compareToTraceback := fun _ _ => []
    getline := fun _ _ => ""
    reprStat := fun _ => ""
    formatTb := fun _ => []
    now := "2026-10-12_00-00-00" }

/-- A concrete ranked statistic. -/
def statA : Statistic :=
  ⟨1, 100, ⟨"a.py", 1⟩, []⟩

/-- Another concrete ranked statistic. -/
def statB : Statistic :=
  ⟨2, 200, ⟨"b.py", 2⟩, []⟩

/-- A concrete start measurement. -/
def ptA : PointInTimeProfile :=
  ⟨100, 0⟩

/-- A concrete stop measurement. -/
def ptB : PointInTimeProfile :=
  ⟨40, 1⟩

/-!
Claim theorems.
-/

/-- C8: the byte-size formatter is a pure total function over the units
B..EB with one decimal place and preserved sign; in particular
`format(0) = "0.0 B"`, `format(1536) = "1.5 KB"`,
`format(1024 ^ 3) = "1.0 GB"`, and `format(-2048) = "-2.0 KB"`. -/
theorem c8_format_bytes_values :
    format_bytes 0 = "0.0 B" ∧
    format_bytes 1536 = "1.5 KB" ∧
    format_bytes (1024 ^ 3) = "1.0 GB" ∧
    format_bytes (-2048) = "-2.0 KB" := by
  decide

/-- C1: for either session controller, `start()` against an active
session raises `ProfilingAlreadyStarted` and leaves the state untouched
(no new session begins); for the memory controller the message names the
`PYTHONTRACEMALLOC` environment variable exactly when the tracer was
enabled through it out-of-band. -/
theorem c1_start_already_started
    (self : TracemallocProfiler) (opt : Tracemalloc.ProfileOptions)
    (s : TracingState) (opt' : Pyinstrument.ProfileOptions) (cs : CpuState)
    (h : PyinstrumentHandle) :
    (s.tracing = true → self.tracemallocEnabledInEnv = true →
      self.start opt s =
        (.error (.profilingAlreadyStarted
          "Profiler is already started via environment variable PYTHONTRACEMALLOC"), s)) ∧
    (s.tracing = true → self.tracemallocEnabledInEnv = false →
      self.start opt s =
        (.error (.profilingAlreadyStarted "Profiler is already started"), s)) ∧
    (cs.curr = some h →
      PyInstrumentProfiler.start opt' cs =
        (.error (.profilingAlreadyStarted "Profiler is already started"), cs)) := by
  refine ⟨fun ht he => ?_, fun ht he => ?_, fun hc => ?_⟩
  · simp [TracemallocProfiler.start, ht, he]
  · simp [TracemallocProfiler.start, ht, he]
  · simp [PyInstrumentProfiler.start, hc]

/-- Witness for C1 at concrete states. -/
theorem c1_start_already_started_witness :
    (TracemallocProfiler.start ⟨true⟩ ⟨true, 30⟩ ⟨true, 0⟩ =
      (.error (.profilingAlreadyStarted
        "Profiler is already started via environment variable PYTHONTRACEMALLOC"),
       ⟨true, 0⟩)) ∧
    (TracemallocProfiler.start ⟨false⟩ ⟨true, 30⟩ ⟨true, 0⟩ =
      (.error (.profilingAlreadyStarted "Profiler is already started"), ⟨true, 0⟩)) ∧
    (PyInstrumentProfiler.start ⟨1, none, .enabled⟩
        ⟨some ⟨1, none, .enabled, true⟩⟩ =
      (.error (.profilingAlreadyStarted "Profiler is already started"),
       ⟨some ⟨1, none, .enabled, true⟩⟩)) :=
  ⟨(c1_start_already_started ⟨true⟩ ⟨true, 30⟩ ⟨true, 0⟩ ⟨1, none, .enabled⟩
      ⟨some ⟨1, none, .enabled, true⟩⟩ ⟨1, none, .enabled, true⟩).1 rfl rfl,
   (c1_start_already_started ⟨false⟩ ⟨true, 30⟩ ⟨true, 0⟩ ⟨1, none, .enabled⟩
      ⟨some ⟨1, none, .enabled, true⟩⟩ ⟨1, none, .enabled, true⟩).2.1 rfl rfl,
   (c1_start_already_started ⟨false⟩ ⟨true, 30⟩ ⟨true, 0⟩ ⟨1, none, .enabled⟩
      ⟨some ⟨1, none, .enabled, true⟩⟩ ⟨1, none, .enabled, true⟩).2.2 rfl⟩

/-- C3: against an inactive session, the memory controller's `stop()`
and `snapshot()` and the CPU controller's `stop()` all raise
`ProfilingNotStarted` and leave the (inactive) state untouched — none of
them silently no-ops. -/
theorem c3_stop_not_started (env : TraceEnv) (s : TracingState) (cs : CpuState) :
    (s.tracing = false →
      TracemallocProfiler.stop s =
        (.error (.profilingNotStarted "Profiler is not started yet"), s) ∧
      TracemallocProfiler.snapshot env s =
        (.error (.profilingNotStarted "Profiler is not started yet"), s)) ∧
    (cs.curr = none →
      PyInstrumentProfiler.stop cs =
        (.error (.profilingNotStarted "Profiler is not started yet"), cs)) := by
  refine ⟨fun ht => ⟨?_, ?_⟩, fun hc => ?_⟩
  · simp [TracemallocProfiler.stop, ht]
  · simp [TracemallocProfiler.snapshot, ht]
  · simp [PyInstrumentProfiler.stop, hc]

/-- Witness for C3 at concrete inactive states. -/
theorem c3_stop_not_started_witness :
    (TracemallocProfiler.stop ⟨false, 0⟩ =
      (.error (.profilingNotStarted "Profiler is not started yet"), ⟨false, 0⟩)) ∧
    (TracemallocProfiler.snapshot envZero ⟨false, 0⟩ =
      (.error (.profilingNotStarted "Profiler is not started yet"), ⟨false, 0⟩)) ∧
    (PyInstrumentProfiler.stop ⟨none⟩ =
      (.error (.profilingNotStarted "Profiler is not started yet"), ⟨none⟩)) :=
  ⟨((c3_stop_not_started envZero ⟨false, 0⟩ ⟨none⟩).1 rfl).1,
   ((c3_stop_not_started envZero ⟨false, 0⟩ ⟨none⟩).1 rfl).2,
   (c3_stop_not_started envZero ⟨false, 0⟩ ⟨none⟩).2 rfl⟩

/-- C2: for either scoped profiling operation that successfully starts
(the session was idle), the session is idle again after the scope exits,
both when the enclosed workload completes normally and when it raises;
the exit path runs to completion first — for memory, the final snapshot
is taken (the measurement tick advances past both the start and the
final snapshot) and only then does the workload's exception propagate as
the scope's result. -/
theorem c2_scoped_profile_teardown (self : TracemallocProfiler)
    (env : TraceEnv) (opt : Tracemalloc.ProfileOptions) (work : Workload)
    (s : TracingState) (opt' : Pyinstrument.ProfileOptions) (cs : CpuState) :
    (s.tracing = false →
      (self.profile env opt work s).2.tracing = false ∧
      (self.profile env opt work s).2.tick = s.tick + work.ticks + 2 ∧
      (∀ e, work.outcome = some e →
        (self.profile env opt work s).1 = .error (.inr e)) ∧
      (work.outcome = none →
        ∃ proxy, (self.profile env opt work s).1 = .ok proxy)) ∧
    (cs.curr = none →
      (PyInstrumentProfiler.profile opt' work cs).2.curr = none ∧
      (∀ e, work.outcome = some e →
        (PyInstrumentProfiler.profile opt' work cs).1 = .error (.inr e)) ∧
      (work.outcome = none →
        ∃ h, (PyInstrumentProfiler.profile opt' work cs).1 = .ok h)) := by
  constructor
  · intro ht
    cases hw : work.outcome with
    | none =>
      refine ⟨?_, ?_, ?_, ?_⟩
      · simp [TracemallocProfiler.profile, TracemallocProfiler.start,
          TracemallocProfiler.snapshot, TracemallocProfiler.stop, ht, hw]
      · simp [TracemallocProfiler.profile, TracemallocProfiler.start,
          TracemallocProfiler.snapshot, TracemallocProfiler.stop, ht, hw]
        omega
      · simp [TracemallocProfiler.profile, TracemallocProfiler.start,
          TracemallocProfiler.snapshot, TracemallocProfiler.stop, ht, hw]
      · simp [TracemallocProfiler.profile, TracemallocProfiler.start,
          TracemallocProfiler.snapshot, TracemallocProfiler.stop, ht, hw]
    | some e =>
      refine ⟨?_, ?_, ?_, ?_⟩
      · simp [TracemallocProfiler.profile, TracemallocProfiler.start,
          TracemallocProfiler.snapshot, TracemallocProfiler.stop, ht, hw]
      · simp [TracemallocProfiler.profile, TracemallocProfiler.start,
          TracemallocProfiler.snapshot, TracemallocProfiler.stop, ht, hw]
        omega
      · simp [TracemallocProfiler.profile, TracemallocProfiler.start,
          TracemallocProfiler.snapshot, TracemallocProfiler.stop, ht, hw]
      · simp [TracemallocProfiler.profile, TracemallocProfiler.start,
          TracemallocProfiler.snapshot, TracemallocProfiler.stop, ht, hw]
  · intro hc
    cases hw : work.outcome with
    | none =>
      refine ⟨?_, ?_, ?_⟩ <;>
        simp [PyInstrumentProfiler.profile, PyInstrumentProfiler.start,
          PyInstrumentProfiler.stop, hc, hw]
    | some e =>
      refine ⟨?_, ?_, ?_⟩ <;>
        simp [PyInstrumentProfiler.profile, PyInstrumentProfiler.start,
          PyInstrumentProfiler.stop, hc, hw]

/-- Witness for C2: a raising workload in an idle memory session and an
idle CPU session. -/
theorem c2_scoped_profile_teardown_witness :
    (TracemallocProfiler.profile ⟨false⟩ envZero ⟨true, 30⟩ ⟨3, some "boom"⟩
        ⟨false, 0⟩).2.tracing = false ∧
    (TracemallocProfiler.profile ⟨false⟩ envZero ⟨true, 30⟩ ⟨3, some "boom"⟩
        ⟨false, 0⟩).1 = .error (.inr "boom") ∧
    (PyInstrumentProfiler.profile ⟨1, none, .enabled⟩ ⟨3, some "boom"⟩
        ⟨none⟩).2.curr = none :=
  ⟨((c2_scoped_profile_teardown ⟨false⟩ envZero ⟨true, 30⟩ ⟨3, some "boom"⟩
      ⟨false, 0⟩ ⟨1, none, .enabled⟩ ⟨none⟩).1 rfl).1,
   ((c2_scoped_profile_teardown ⟨false⟩ envZero ⟨true, 30⟩ ⟨3, some "boom"⟩
      ⟨false, 0⟩ ⟨1, none, .enabled⟩ ⟨none⟩).1 rfl).2.2.1 "boom" rfl,
   ((c2_scoped_profile_teardown ⟨false⟩ envZero ⟨true, 30⟩ ⟨3, some "boom"⟩
      ⟨false, 0⟩ ⟨1, none, .enabled⟩ ⟨none⟩).2 rfl).1⟩

/-- C4: for either profiling kind, `get_renderer` on a format outside
the registry raises a `ValueError` whose message lists exactly that
kind's valid formats (lineno, traceback, pickle for memory; json, html,
speedscope for CPU), and succeeds on every registered format. -/
theorem c4_get_renderer_unsupported_format (f : String) :
    (f ∉ ["lineno", "traceback", "pickle"] →
      Tracemalloc.get_renderer f = .error (.valueError
        ("Invalid profile format: " ++ f ++ " (formats: " ++
          "lineno, traceback, pickle" ++ ")"))) ∧
    (f ∈ ["lineno", "traceback", "pickle"] →
      ∃ r, Tracemalloc.get_renderer f = .ok r) ∧
    (f ∉ ["json", "html", "speedscope"] →
      Pyinstrument.get_renderer f = .error (.valueError
        ("Invalid profile format: " ++ f ++ " (formats: " ++
          "json, html, speedscope" ++ ")"))) ∧
    (f ∈ ["json", "html", "speedscope"] →
      ∃ r, Pyinstrument.get_renderer f = .ok r) := by
  refine ⟨fun h => ?_, fun h => ?_, fun h => ?_, fun h => ?_⟩
  · have b1 : (f == "lineno") = false := by simp; exact fun e => h (by simp [e])
    have b2 : (f == "traceback") = false := by simp; exact fun e => h (by simp [e])
    have b3 : (f == "pickle") = false := by simp; exact fun e => h (by simp [e])
    have hj : String.intercalate ", " ["lineno", "traceback", "pickle"] =
        "lineno, traceback, pickle" := by decide
    simp [Tracemalloc.get_renderer, Tracemalloc.PROFILE_RENDERERS,
      List.lookup, b1, b2, b3, hj]
  · simp only [List.mem_cons, List.not_mem_nil, or_false] at h
    rcases h with rfl | rfl | rfl
    · exact ⟨.lineno, by decide⟩
    · exact ⟨.traceback, by decide⟩
    · exact ⟨.pickle, by decide⟩
  · have b1 : (f == "json") = false := by simp; exact fun e => h (by simp [e])
    have b2 : (f == "html") = false := by simp; exact fun e => h (by simp [e])
    have b3 : (f == "speedscope") = false := by simp; exact fun e => h (by simp [e])
    have hj : String.intercalate ", " ["json", "html", "speedscope"] =
        "json, html, speedscope" := by decide
    simp [Pyinstrument.get_renderer, Pyinstrument.PROFILE_RENDERERS,
      List.lookup, b1, b2, b3, hj]
  · simp only [List.mem_cons, List.not_mem_nil, or_false] at h
    rcases h with rfl | rfl | rfl
    · exact ⟨.json, by decide⟩
    · exact ⟨.html, by decide⟩
    · exact ⟨.speedscope, by decide⟩

/-- Witness for C4 at the unregistered format "nonexistent" and the
registered formats "lineno" and "html". -/
theorem c4_get_renderer_unsupported_format_witness :
    Tracemalloc.get_renderer "nonexistent" = .error (.valueError
      ("Invalid profile format: " ++ "nonexistent" ++ " (formats: " ++
        "lineno, traceback, pickle" ++ ")")) ∧
    (∃ r, Tracemalloc.get_renderer "lineno" = .ok r) ∧
    (∃ r, Pyinstrument.get_renderer "html" = .ok r) :=
  ⟨(c4_get_renderer_unsupported_format "nonexistent").1 (by decide),
   (c4_get_renderer_unsupported_format "lineno").2.1 (by decide),
   (c4_get_renderer_unsupported_format "html").2.2.2 (by decide)⟩

/-- C10: once a first `get()` on an interval-profile proxy succeeds, its
result is memoized — every later `get()` returns the same
`IntervalProfile`, even after `stop()` is called again with a different
snapshot. -/
theorem c10_proxy_get_memoized (p p' : IntervalProfileProxy)
    (ip : IntervalProfile) (sp' : PointInTimeProfile)
    (h : p.get = .ok (ip, p')) :
    p'.get = .ok (ip, p') ∧
    (p'.setStop sp').get = .ok (ip, p'.setStop sp') := by
  unfold IntervalProfileProxy.get at h
  cases hsp : p.stop_profile with
  | none => rw [hsp] at h; exact absurd h (by simp)
  | some sp =>
    rw [hsp] at h
    cases hip : p.intervalProfile with
    | some ip0 =>
      rw [hip] at h
      simp only [Except.ok.injEq, Prod.mk.injEq] at h
      obtain ⟨h1, h2⟩ := h
      subst h1
      subst h2
      refine ⟨?_, ?_⟩ <;>
        simp [IntervalProfileProxy.get, IntervalProfileProxy.setStop, hsp, hip]
    | none =>
      rw [hip] at h
      simp only [Except.ok.injEq, Prod.mk.injEq] at h
      obtain ⟨h1, h2⟩ := h
      subst h1
      subst h2
      refine ⟨?_, ?_⟩ <;>
        simp [IntervalProfileProxy.get, IntervalProfileProxy.setStop, hsp]

/-- Witness for C10: a proxy whose stop profile was recorded, queried
once, then re-stopped with a different snapshot — `get` keeps returning
the first interval profile. -/
theorem c10_proxy_get_memoized_witness :
    (⟨ptA, some ptB, some ⟨100, 0, 40, 1⟩⟩ : IntervalProfileProxy).get =
      .ok (⟨100, 0, 40, 1⟩, ⟨ptA, some ptB, some ⟨100, 0, 40, 1⟩⟩) ∧
    ((⟨ptA, some ptB, some ⟨100, 0, 40, 1⟩⟩ : IntervalProfileProxy).setStop
        ptA).get =
      .ok (⟨100, 0, 40, 1⟩,
        (⟨ptA, some ptB, some ⟨100, 0, 40, 1⟩⟩ :
          IntervalProfileProxy).setStop ptA) :=
  c10_proxy_get_memoized ((IntervalProfileProxy.init ptA).setStop ptB)
    ⟨ptA, some ptB, some ⟨100, 0, 40, 1⟩⟩ ⟨100, 0, 40, 1⟩ ptA (by decide)

/-- C5 counterexample: the claim says a non-positive count yields exactly
the empty stats list, but at `count = -1` with two raw statistics both
memory formatters keep all but the last entry (Python slice semantics),
so the output is non-empty. -/
theorem c5_counterexample :
    ((-1 : Int) ≤ 0) ∧
    LinenoSnapshotRenderer.formatLineno envZero [statA, statB] (-1) ≠ [] ∧
    TracebackSnapshotRender.formatTraceback envZero [statA, statB] (-1) ≠ [] := by
  decide

/-- C5 amended: for `count ≥ 0` both memory formatters emit at most
`count` entries, and exactly the empty list at `count = 0`; for a
negative count Python slicing keeps all but the last `|count|` entries
(empty only once `|count|` reaches the list length); the heap-usage
summary fields are computed and included for every count. -/
theorem c5_amended (env : TraceEnv) (stats : List Statistic) (count : Int)
    (p : IntervalProfile) (pp : PointInTimeProfile) (cum : Bool) :
    (0 ≤ count →
      (LinenoSnapshotRenderer.formatLineno env stats count).length ≤
        count.toNat ∧
      (TracebackSnapshotRender.formatTraceback env stats count).length ≤
        count.toNat) ∧
    (count = 0 →
      LinenoSnapshotRenderer.formatLineno env stats count = [] ∧
      TracebackSnapshotRender.formatTraceback env stats count = []) ∧
    (count < 0 →
      (LinenoSnapshotRenderer.formatLineno env stats count).length =
        stats.length - (-count).toNat ∧
      (TracebackSnapshotRender.formatTraceback env stats count).length =
        stats.length - (-count).toNat) ∧
    ((LinenoSnapshotRenderer.renderInterval env p count cum).content.heap_current_bytes =
        p.stop_heap_usage_bytes ∧
      (LinenoSnapshotRenderer.renderInterval env p count cum).content.heap_current =
        format_bytes p.stop_heap_usage_bytes ∧
      (LinenoSnapshotRenderer.renderPointInTime env pp count cum).content.heap_current_bytes =
        pp.heap_usage_bytes ∧
      (TracebackSnapshotRender.renderInterval env p count).content.heap_current_bytes =
        p.stop_heap_usage_bytes) := by
  refine ⟨fun h => ⟨?_, ?_⟩, fun h => ⟨?_, ?_⟩, fun h => ⟨?_, ?_⟩, ?_, ?_, ?_, ?_⟩
  · simp [LinenoSnapshotRenderer.formatLineno, pySliceTo, h]
  · simp [TracebackSnapshotRender.formatTraceback, pySliceTo, h]
  · subst h; simp [LinenoSnapshotRenderer.formatLineno, pySliceTo]
  · subst h; simp [TracebackSnapshotRender.formatTraceback, pySliceTo]
  · simp only [LinenoSnapshotRenderer.formatLineno, pySliceTo,
      if_neg (not_le.mpr h), List.length_map, List.length_take]
    omega
  · simp only [TracebackSnapshotRender.formatTraceback, pySliceTo,
      if_neg (not_le.mpr h), List.length_map, List.length_take]
    omega
  · simp [LinenoSnapshotRenderer.renderInterval]
  · simp [LinenoSnapshotRenderer.renderInterval]
  · simp [LinenoSnapshotRenderer.renderPointInTime]
  · simp [TracebackSnapshotRender.renderInterval]

/-- Witness for C5 (amended) at concrete counts 1, 0 and -1 over two raw
statistics. -/
theorem c5_amended_witness :
    (LinenoSnapshotRenderer.formatLineno envZero [statA, statB] 1).length ≤
      (1 : Int).toNat ∧
    LinenoSnapshotRenderer.formatLineno envZero [statA, statB] 0 = [] ∧
    (LinenoSnapshotRenderer.formatLineno envZero [statA, statB] (-1)).length =
      [statA, statB].length - (-(-1 : Int)).toNat :=
  ⟨((c5_amended envZero [statA, statB] 1 ⟨0, 0, 0, 0⟩ ⟨0, 0⟩ false).1
      (by decide)).1,
   ((c5_amended envZero [statA, statB] 0 ⟨0, 0, 0, 0⟩ ⟨0, 0⟩ false).2.1
      rfl).1,
   ((c5_amended envZero [statA, statB] (-1) ⟨0, 0, 0, 0⟩ ⟨0, 0⟩ false).2.2.1
      (by decide)).1⟩

/-- C6 counterexample: the claim says `heapDiffBytes = B2 - B1` holds
even when the baseline heap usage B1 is zero, but the legacy memory.py
renderer guards the diff fields with Python truthiness of the baseline
figure: rendering with a baseline snapshot and `B1 = 0`, `B2 = 5` omits
`heap_diff_bytes` entirely instead of reporting `5`. -/
theorem c6_counterexample :
    (Memory.LinenoSnapshotRenderer.render envZero 1 5 (some 0) (some 0)
        10 false).heap_diff_bytes ≠ some (5 - 0) ∧
    (Memory.LinenoSnapshotRenderer.render envZero 1 5 (some 0) (some 0)
        10 false).heap_diff_bytes = none := by
  decide

/-- C6 amended: the interval renderers of mem/tracemalloc.py always
report `heap_diff_bytes = B2 - B1` exactly (negative and zero-baseline
cases included) and `heap_current_bytes = B2`; the legacy memory.py
renderer reports `heap_diff_bytes = B2 - B1` only when the baseline heap
figure is non-zero, and omits the field when the baseline heap usage is
zero (Python truthiness guard), while `heap_current_bytes = B2` always. -/
theorem c6_amended (env : TraceEnv) (p : IntervalProfile) (count : Int)
    (cum : Bool) (snap : RawSnapshot) (b2 : Int)
    (iniSnap : Option RawSnapshot) (b1 : Int) :
    ((LinenoSnapshotRenderer.renderInterval env p count cum).content.heap_diff_bytes =
        some (p.stop_heap_usage_bytes - p.start_heap_usage_bytes) ∧
      (LinenoSnapshotRenderer.renderInterval env p count cum).content.heap_current_bytes =
        p.stop_heap_usage_bytes ∧
      (TracebackSnapshotRender.renderInterval env p count).content.heap_diff_bytes =
        some (p.stop_heap_usage_bytes - p.start_heap_usage_bytes) ∧
      (TracebackSnapshotRender.renderInterval env p count).content.heap_current_bytes =
        p.stop_heap_usage_bytes) ∧
    (b1 ≠ 0 →
      (Memory.LinenoSnapshotRenderer.render env snap b2 iniSnap (some b1)
          count cum).heap_diff_bytes = some (b2 - b1)) ∧
    (Memory.LinenoSnapshotRenderer.render env snap b2 iniSnap (some 0)
        count cum).heap_diff_bytes = none ∧
    (Memory.LinenoSnapshotRenderer.render env snap b2 iniSnap (some b1)
        count cum).heap_current_bytes = b2 := by
  refine ⟨⟨?_, ?_, ?_, ?_⟩, fun h => ?_, ?_, ?_⟩
  · simp [LinenoSnapshotRenderer.renderInterval]
  · simp [LinenoSnapshotRenderer.renderInterval]
  · simp [TracebackSnapshotRender.renderInterval]
  · simp [TracebackSnapshotRender.renderInterval]
  · simp [Memory.LinenoSnapshotRenderer.render, h]
  · simp [Memory.LinenoSnapshotRenderer.render]
  · simp [Memory.LinenoSnapshotRenderer.render]

/-- Witness for C6 (amended) at a non-zero baseline. -/
theorem c6_amended_witness :
    (Memory.LinenoSnapshotRenderer.render envZero 1 5 none (some 7)
        10 false).heap_diff_bytes = some (5 - 7) :=
  (c6_amended envZero ⟨0, 0, 0, 0⟩ 10 false 1 5 none 7).2.1 (by decide)

/-- C7 counterexample: the claim says a non-positive CPU sampling
interval raises at construction time, but the cpu `ProfileOptions`
dataclass performs no validation: constructing it with interval -1
succeeds. -/
theorem c7_counterexample :
    ((-1 : ℚ) ≤ 0) ∧
    Pyinstrument.ProfileOptions.make (-1) none .enabled =
      .ok ⟨-1, none, .enabled⟩ :=
  ⟨by norm_num, rfl⟩

/-- C7 amended: memory options with `frames < 1` raise `ValueError` at
construction time, before any session state is touched, and valid memory
options construct successfully preserving the given values; CPU options
perform no interval validation — construction succeeds for every
interval, positive or not, preserving the given values. -/
theorem c7_amended (gc : Bool) (frames : Int) (i : ℚ) (utt : Option Bool)
    (am : AsyncModes) :
    (frames < 1 →
      Tracemalloc.ProfileOptions.make gc frames =
        .error (.valueError "Frames should be greater than 0")) ∧
    (1 ≤ frames →
      Tracemalloc.ProfileOptions.make gc frames = .ok ⟨gc, frames⟩) ∧
    Pyinstrument.ProfileOptions.make i utt am = .ok ⟨i, utt, am⟩ := by
  refine ⟨fun h => ?_, fun h => ?_, rfl⟩
  · unfold Tracemalloc.ProfileOptions.make
    rw [if_pos h]
  · unfold Tracemalloc.ProfileOptions.make
    rw [if_neg (by omega)]

/-- Witness for C7 (amended) at frames 0 and 30. -/
theorem c7_amended_witness :
    Tracemalloc.ProfileOptions.make true 0 =
      .error (.valueError "Frames should be greater than 0") ∧
    Tracemalloc.ProfileOptions.make true 30 = .ok ⟨true, 30⟩ :=
  ⟨(c7_amended true 0 1 none .enabled).1 (by decide),
   (c7_amended true 30 1 none .enabled).2.1 (by decide)⟩

/-- Invariant of the two-thread `start` race: a thread can only have
raised `AlreadyStarted` after some profiler was installed, and a
profiler is installed only by a thread that thereby succeeded. -/
abbrev RaceInv (s : RaceState) : Prop :=
  ((s.pc0 = .raised ∨ s.pc1 = .raised) → s.curr.isSome = true) ∧
  (s.curr.isSome = true → s.pc0 = .succeeded ∨ s.pc1 = .succeeded)

set_option maxRecDepth 4000 in
/-- The race invariant is preserved by every atomic step. -/
theorem race_inv_step :
    ∀ (i : Bool) (s : RaceState), RaceInv s → RaceInv (raceStep i s) := by
  decide

/-- The race invariant holds after running any schedule from an
invariant state. -/
theorem race_inv_run (sched : List Bool) (s : RaceState) (h : RaceInv s) :
    RaceInv (raceRun sched s) := by
  induction sched generalizing s with
  | nil => exact h
  | cons i rest ih => exact ih (raceStep i s) (race_inv_step i s h)

/-- C9 counterexample: the claim says two racing `start()` calls against
an IDLE CPU session resolve with exactly one success and one
`AlreadyStarted`, by an atomic locked check-then-act.  But `start`
checks `_curr_profiler` before acquiring the lock, so the interleaving
in which both threads pass the check before either assigns lets both
calls succeed and neither raise. -/
theorem c9_counterexample :
    (raceRun [false, true, false, false, true, true] raceInit).pc0 =
      .succeeded ∧
    (raceRun [false, true, false, false, true, true] raceInit).pc1 =
      .succeeded ∧
    (raceRun [false, true, false, false, true, true] raceInit).pc0 ≠
      .raised ∧
    (raceRun [false, true, false, false, true, true] raceInit).pc1 ≠
      .raised := by
  decide

/-- C9 amended: under no interleaving do both racing `start()` calls
raise `AlreadyStarted`; when the calls are serialized (one completes
before the other's active-flag check) exactly one succeeds and the other
raises; but because `start` reads the active flag before acquiring
`_profiler_lock`, there is an interleaving in which both calls succeed
(only `stop` re-checks under the lock). -/
theorem c9_amended :
    (∀ sched : List Bool,
      ¬((raceRun sched raceInit).pc0 = .raised ∧
        (raceRun sched raceInit).pc1 = .raised)) ∧
    ((raceRun [false, false, false, true] raceInit).pc0 = .succeeded ∧
      (raceRun [false, false, false, true] raceInit).pc1 = .raised) ∧
    (∃ sched : List Bool,
      (raceRun sched raceInit).pc0 = .succeeded ∧
      (raceRun sched raceInit).pc1 = .succeeded) := by
  refine ⟨?_, by decide, ⟨[false, true, false, false, true, true], by decide⟩⟩
  intro sched h
  have hinv := race_inv_run sched raceInit (by decide)
  have hc := hinv.1 (Or.inl h.1)
  rcases hinv.2 hc with hs | hs
  · rw [h.1] at hs; simp at hs
  · rw [h.2] at hs; simp at hs

/-- Witness for C9 (amended): the no-double-raise conjunct applied to
the empty schedule. -/
theorem c9_amended_witness :
    ¬((raceRun [] raceInit).pc0 = .raised ∧
      (raceRun [] raceInit).pc1 = .raised) :=
  c9_amended.1 []
